import Mathlib

/-!
# init-scripts/init-mongo.js

A shallow embedding of the MongoDB bootstrap script.  The script is three kinds of
shell statement executed in sequence against a shell session:

* `db = db.getSiblingDB('video_streaming')`  rebinds the session handle,
* `db.createUser({...})`                      sends one administrative command,
* `print('...')`                              appends one line to standard output.

The database engine is not part of the repository.  The script is therefore embedded
over an arbitrary `Backend` (what the store answers to a `createUser` command), and the
facts that depend on the store's answer are settled over `mongo`, a store modelled from
the specification.
-/

namespace InitMongo

/-! ## Data passed by the script -/

/-- One element of the `roles` array: `{ role: ..., db: ... }`. -/
structure RoleGrant where
  role : String
  db : String
deriving DecidableEq, Repr

/-- The object literal handed to `db.createUser`: `{ user, pwd, roles }`. -/
structure UserDoc where
  user : String
  pwd : String
  roles : List RoleGrant
deriving DecidableEq, Repr

/-- An administrative command sent over the connection, with the database it is
addressed to.  The script only ever uses `createUser`. -/
inductive Request where
  | createUser (db : String) (doc : UserDoc)
deriving DecidableEq, Repr

/-- The database a request is addressed to. -/
def Request.target : Request → String
  | .createUser db _ => db

/-! ## The shell session -/

/-- What the store answers to a `createUser` command addressed to database `db`:
either the store after the command, or a rejection.  A rejected command carries no
new store. -/
structure Backend (σ ε : Type) where
  createUser : σ → String → UserDoc → Except ε σ

/-- State of a shell session: the global `db` handle (the name of the current database),
the store behind the connection, the lines written to standard output and the commands
sent over the connection so far. -/
structure Shell (σ : Type) where
  db : String
  store : σ
  out : List String
  log : List Request

/-- A shell statement: it either completes in a new session state or throws, in which
case the script stops at the session state reached so far. -/
abbrev Stmt (σ ε : Type) := Shell σ → Except (ε × Shell σ) (Shell σ)

/-- `h.getSiblingDB(name)`: a handle on database `name` over the same connection.
Nothing is sent to the store. -/
def getSiblingDB (_h : String) (name : String) : String := name

/-- `db = db.getSiblingDB(name);` -/
def assignSiblingDB {σ ε : Type} (name : String) : Stmt σ ε := fun sh =>
  .ok { sh with db := getSiblingDB sh.db name }

/-- `db.createUser(doc);`: one command addressed to the database the handle `db`
currently points to.  A rejection is thrown. -/
def createUser {σ ε : Type} (B : Backend σ ε) (doc : UserDoc) : Stmt σ ε := fun sh =>
  let sent : Shell σ := { sh with log := sh.log ++ [Request.createUser sh.db doc] }
  match B.createUser sh.store sh.db doc with
  | .ok st => .ok { sent with store := st }
  | .error e => .error (e, sent)

/-- `print(line);` -/
def print {σ ε : Type} (line : String) : Stmt σ ε := fun sh =>
  .ok { sh with out := sh.out ++ [line] }

/-- The user document of the script (lines 6 to 15). -/
def videoUserDoc : UserDoc :=
  { user := "video_user"
    pwd := "video_password"
    roles := [{ role := "readWrite", db := "video_streaming" }] }

/-- The whole script `init-mongo.js`, statement by statement. -/
def initMongo {σ ε : Type} (B : Backend σ ε) : Stmt σ ε := fun sh => do
  let sh ← assignSiblingDB "video_streaming" sh
  let sh ← createUser B videoUserDoc sh
  let sh ← print "MongoDB initialization completed successfully!" sh
  let sh ← print "Created database: video_streaming" sh
  let sh ← print "Created collections: video_raw_data, video_analytics, user_interactions" sh
  print "Created indexes and inserted sample data" sh

/-- A session as the script finds it: handle on `current`, nothing printed or sent yet. -/
def Shell.fresh {σ : Type} (current : String) (store : σ) : Shell σ :=
  { db := current, store := store, out := [], log := [] }

/-- The error a run ended with, if any. -/
def errorOf {σ ε : Type} : Except (ε × Shell σ) (Shell σ) → Option ε
  | .ok _ => none
  | .error (e, _) => some e

/-- The session state a run ended in (on an error: where the script stopped). -/
def finalShell {σ ε : Type} : Except (ε × Shell σ) (Shell σ) → Shell σ
  | .ok sh => sh
  | .error (_, sh) => sh

/-- The four status lines, in source order (lines 17 to 20). -/
def statusLines : List String :=
  [ "MongoDB initialization completed successfully!",
    "Created database: video_streaming",
    "Created collections: video_raw_data, video_analytics, user_interactions",
    "Created indexes and inserted sample data" ]

/-- `sub` occurs verbatim inside `line`. -/
def containsText (line sub : String) : Prop := sub.data <:+: line.data

instance (line sub : String) : Decidable (containsText line sub) := by
  unfold containsText; infer_instance

/-! ## The store -/

/-- A principal registered in database `db`. -/
structure Principal where
  db : String
  user : String
  pwd : String
  roles : List RoleGrant
deriving DecidableEq, Repr

/-- A collection of database `db` with its indexes and documents. -/
structure Collection where
  db : String
  name : String
  indexes : List String
  documents : List String
deriving DecidableEq, Repr

/-- Contents of a store: the principals and the collections of all its databases. -/
structure Store where
  principals : List Principal
  collections : List Collection
deriving DecidableEq, Repr

/-- The store of a fresh data directory. -/
def Store.empty : Store := { principals := [], collections := [] }

/-- The rejection the store answers with. -/
inductive StoreError where
  | duplicatePrincipal (db user : String)
deriving DecidableEq, Repr

/-- Whether a principal `user` is registered in database `db`. -/
def Store.hasPrincipal (s : Store) (db user : String) : Bool :=
  s.principals.any fun p => p.db == db && p.user == user

/-- The principals registered in database `db`. -/
def Store.principalsOf (s : Store) (db : String) : List Principal :=
  s.principals.filter fun p => p.db == db

/-- The collections of database `db`. -/
def Store.collectionsOf (s : Store) (db : String) : List Collection :=
  s.collections.filter fun c => c.db == db

/-- The principals registered as `user` in database `db`. -/
def Store.lookup (s : Store) (db user : String) : List Principal :=
  s.principals.filter fun p => p.db == db && p.user == user

/-- Modelled from the spec: the store's `createUser` command, which belongs to the
database engine and not to the repository.  Following sections 4.1 and 6, the command
fails with a duplicate-principal condition when the identifier is already registered in
the target database, and otherwise adds one principal record, holding the identifier,
the credential and the role pairs, to that database; nothing else in the store changes. -/
def Store.createUser (s : Store) (db : String) (doc : UserDoc) : Except StoreError Store :=
  if s.hasPrincipal db doc.user then
    .error (.duplicatePrincipal db doc.user)
  else
    .ok { s with principals := s.principals ++ [⟨db, doc.user, doc.pwd, doc.roles⟩] }

/-- The store behind the connection. -/
def mongo : Backend Store StoreError := { createUser := Store.createUser }

/-- The principal the script is meant to register. -/
def videoUser : Principal :=
  { db := "video_streaming"
    user := "video_user"
    pwd := "video_password"
    roles := [{ role := "readWrite", db := "video_streaming" }] }

/-- One run of the script against `store`, started with the handle on `current`. -/
def run (current : String) (store : Store) : Except (StoreError × Shell Store) (Shell Store) :=
  initMongo mongo (Shell.fresh current store)

/-! ## How a run unfolds -/

/-- The session state a run stops in when the store accepts the command. -/
theorem initMongo_of_accepted {σ ε : Type} (B : Backend σ ε) (sh : Shell σ) (st : σ)
    (h : B.createUser sh.store "video_streaming" videoUserDoc = .ok st) :
    initMongo B sh = .ok
      { db := "video_streaming"
        store := st
        out := sh.out ++ statusLines
        log := sh.log ++ [Request.createUser "video_streaming" videoUserDoc] } := by
  simp [initMongo, assignSiblingDB, createUser, getSiblingDB, print, statusLines, h, bind,
    Except.bind]

/-- The session state a run stops in when the store rejects the command. -/
theorem initMongo_of_rejected {σ ε : Type} (B : Backend σ ε) (sh : Shell σ) (e : ε)
    (h : B.createUser sh.store "video_streaming" videoUserDoc = .error e) :
    initMongo B sh = .error (e,
      { db := "video_streaming"
        store := sh.store
        out := sh.out
        log := sh.log ++ [Request.createUser "video_streaming" videoUserDoc] }) := by
  simp [initMongo, assignSiblingDB, createUser, getSiblingDB, h, bind, Except.bind]

/-- A run that ends without error is one whose command the store accepted. -/
theorem accepted_of_no_error {σ ε : Type} (B : Backend σ ε) (sh : Shell σ)
    (h : errorOf (initMongo B sh) = none) :
    ∃ st, B.createUser sh.store "video_streaming" videoUserDoc = .ok st := by
  cases hc : B.createUser sh.store "video_streaming" videoUserDoc with
  | ok st => exact ⟨st, rfl⟩
  | error e => rw [initMongo_of_rejected B sh e hc] at h; simp [errorOf] at h

/-- A run against a store in which `video_user` is not yet registered in
`video_streaming`. -/
theorem run_of_absent (current : String) (store : Store)
    (h : store.hasPrincipal "video_streaming" "video_user" = false) :
    run current store = .ok
      { db := "video_streaming"
        store := { store with principals := store.principals ++ [videoUser] }
        out := statusLines
        log := [Request.createUser "video_streaming" videoUserDoc] } := by
  have hc : mongo.createUser (Shell.fresh current store).store "video_streaming" videoUserDoc
      = .ok { store with principals := store.principals ++ [videoUser] } := by
    simp [mongo, Store.createUser, Shell.fresh, videoUserDoc, videoUser, h]
  simpa [run, Shell.fresh] using initMongo_of_accepted mongo (Shell.fresh current store) _ hc

/-- A run against a store in which `video_user` is already registered in
`video_streaming`. -/
theorem run_of_present (current : String) (store : Store)
    (h : store.hasPrincipal "video_streaming" "video_user" = true) :
    run current store = .error (StoreError.duplicatePrincipal "video_streaming" "video_user",
      { db := "video_streaming"
        store := store
        out := []
        log := [Request.createUser "video_streaming" videoUserDoc] }) := by
  have hc : mongo.createUser (Shell.fresh current store).store "video_streaming" videoUserDoc
      = .error (StoreError.duplicatePrincipal "video_streaming" "video_user") := by
    simp [mongo, Store.createUser, Shell.fresh, videoUserDoc, h]
  simpa [run, Shell.fresh] using initMongo_of_rejected mongo (Shell.fresh current store) _ hc

/-- A run succeeds exactly when `video_user` was not registered in `video_streaming`. -/
theorem absent_of_no_error (current : String) (store : Store)
    (h : errorOf (run current store) = none) :
    store.hasPrincipal "video_streaming" "video_user" = false := by
  cases hp : store.hasPrincipal "video_streaming" "video_user" with
  | false => rfl
  | true => rw [run_of_present current store hp] at h; simp [errorOf] at h

/-- No principal is found under an identifier that is not registered. -/
theorem lookup_of_absent (store : Store) (db user : String)
    (h : store.hasPrincipal db user = false) : store.lookup db user = [] := by
  unfold Store.lookup
  unfold Store.hasPrincipal at h
  rw [List.filter_eq_nil_iff]
  intro p hp hq
  have : (store.principals.any fun p => p.db == db && p.user == user) = true :=
    List.any_eq_true.mpr ⟨p, hp, hq⟩
  rw [h] at this
  exact Bool.noConfusion this

/-- An identifier that is registered is found at least once. -/
theorem lookup_of_present (store : Store) (db user : String)
    (h : store.hasPrincipal db user = true) : 1 ≤ (store.lookup db user).length := by
  unfold Store.hasPrincipal at h
  obtain ⟨p, hp, hq⟩ := List.any_eq_true.mp h
  have hm : p ∈ store.lookup db user := by
    unfold Store.lookup
    rw [List.mem_filter]
    exact ⟨hp, hq⟩
  exact List.length_pos_of_mem hm

/-- Once `video_user` has been added it is registered. -/
theorem hasPrincipal_after_add (store : Store) :
    ({ store with principals := store.principals ++ [videoUser] } : Store).hasPrincipal
      "video_streaming" "video_user" = true := by
  simp [Store.hasPrincipal, videoUser]

/-! ## Creation of the principal -/

/-- C1: a run against the empty store, whatever database the handle points to at the
start, ends without error in a store whose only principal is `video_user` with
credential `video_password`, registered in `video_streaming`; every other database has
no principal. -/
theorem empty_store_gets_exactly_video_user (current : String) :
    errorOf (run current Store.empty) = none ∧
    (finalShell (run current Store.empty)).store.principals =
      [{ db := "video_streaming", user := "video_user", pwd := "video_password",
         roles := [{ role := "readWrite", db := "video_streaming" }] }] ∧
    (finalShell (run current Store.empty)).store.principals.length = 1 ∧
    ∀ d, (finalShell (run current Store.empty)).store.principalsOf d =
      if d = "video_streaming" then
        [{ db := "video_streaming", user := "video_user", pwd := "video_password",
           roles := [{ role := "readWrite", db := "video_streaming" }] }]
      else [] := by
  rw [run_of_absent current Store.empty (by decide)]
  refine ⟨rfl, rfl, rfl, ?_⟩
  intro d
  by_cases hd : d = "video_streaming"
  · subst hd; rfl
  · have hd2 : ¬ "video_streaming" = d := fun h => hd h.symm
    simp [finalShell, Store.principalsOf, Store.empty, videoUser, hd, hd2]

/-- C2: after every run that ends without error, exactly one principal is registered as
`video_user` in `video_streaming`, and its role set is the one pair
(`readWrite`, `video_streaming`): that pair belongs to it and no other pair does. -/
theorem created_principal_roles (current : String) (store : Store)
    (h : errorOf (run current store) = none) :
    ∃ p, (finalShell (run current store)).store.lookup "video_streaming" "video_user" = [p] ∧
      p.roles = [{ role := "readWrite", db := "video_streaming" }] ∧
      ∀ role db, ({ role := role, db := db } : RoleGrant) ∈ p.roles ↔
        (role = "readWrite" ∧ db = "video_streaming") := by
  have habs := absent_of_no_error current store h
  have hl := lookup_of_absent store _ _ habs
  refine ⟨videoUser, ?_, rfl, ?_⟩
  · rw [run_of_absent current store habs]
    unfold Store.lookup at hl ⊢
    simp only [finalShell, List.filter_append, hl]
    rfl
  · intro role db
    simp [videoUser]

theorem created_principal_roles_witness :
    errorOf (run "admin" Store.empty) = none ∧
    ∃ p, (finalShell (run "admin" Store.empty)).store.lookup "video_streaming" "video_user"
        = [p] ∧
      p.roles = [{ role := "readWrite", db := "video_streaming" }] ∧
      ∀ role db, ({ role := role, db := db } : RoleGrant) ∈ p.roles ↔
        (role = "readWrite" ∧ db = "video_streaming") :=
  ⟨by decide, created_principal_roles "admin" Store.empty (by decide)⟩

/-! ## Running again -/

/-- C3: from every store in which `video_user` is already registered in
`video_streaming`, and in particular from the store a first run leaves behind when
started on the empty store, a run fails with the duplicate-principal error; a second run
from the same store, started with any other handle, fails with the same error. -/
theorem rerun_fails_with_duplicate (store : Store) (c0 c1 c2 : String)
    (h : store.hasPrincipal "video_streaming" "video_user" = true ∨
      store = (finalShell (run c0 Store.empty)).store) :
    errorOf (run c1 store) =
      some (StoreError.duplicatePrincipal "video_streaming" "video_user") ∧
    errorOf (run c2 store) = errorOf (run c1 store) := by
  have hp : store.hasPrincipal "video_streaming" "video_user" = true := by
    rcases h with h | h
    · exact h
    · rw [h, run_of_absent c0 Store.empty (by decide)]
      rfl
  rw [run_of_present c1 store hp, run_of_present c2 store hp]
  exact ⟨rfl, rfl⟩

theorem rerun_fails_with_duplicate_witness :
    errorOf (run "admin" (finalShell (run "test" Store.empty)).store) =
      some (StoreError.duplicatePrincipal "video_streaming" "video_user") ∧
    errorOf (run "video_streaming" (finalShell (run "test" Store.empty)).store) =
      errorOf (run "admin" (finalShell (run "test" Store.empty)).store) :=
  rerun_fails_with_duplicate (finalShell (run "test" Store.empty)).store "test" "admin"
    "video_streaming" (Or.inr rfl)

/-- C4, as stated, fails: started on the empty store the first run succeeds and the
second one, against the store the first left behind, ends with an error. -/
theorem rerun_is_an_error :
    ¬ (errorOf (run "test" Store.empty) = none ∧
       errorOf (run "test" (finalShell (run "test" Store.empty)).store) = none) := by
  decide

/-- C4, amended: from every store in which `video_user` is registered at most once in
`video_streaming`, two runs in succession end in the same store as one run, with
`video_user` registered exactly once in `video_streaming`; the second run is not a
success, it fails with the duplicate-principal error. -/
theorem rerun_keeps_store (c1 c2 : String) (store : Store)
    (h : (store.lookup "video_streaming" "video_user").length ≤ 1) :
    (finalShell (run c2 (finalShell (run c1 store)).store)).store
      = (finalShell (run c1 store)).store ∧
    errorOf (run c2 (finalShell (run c1 store)).store) =
      some (StoreError.duplicatePrincipal "video_streaming" "video_user") ∧
    ((finalShell (run c2 (finalShell (run c1 store)).store)).store.lookup
      "video_streaming" "video_user").length = 1 := by
  cases hp : store.hasPrincipal "video_streaming" "video_user" with
  | false =>
    have hl := lookup_of_absent store _ _ hp
    rw [run_of_absent c1 store hp]
    simp only [finalShell]
    rw [run_of_present c2 _ (hasPrincipal_after_add store)]
    refine ⟨rfl, rfl, ?_⟩
    unfold Store.lookup at hl ⊢
    simp only [finalShell, List.filter_append, hl]
    rfl
  | true =>
    have hl := lookup_of_present store _ _ hp
    rw [run_of_present c1 store hp]
    simp only [finalShell]
    rw [run_of_present c2 store hp]
    exact ⟨rfl, rfl, le_antisymm h hl⟩

theorem rerun_keeps_store_witness :
    (Store.empty.lookup "video_streaming" "video_user").length ≤ 1 ∧
    ((finalShell (run "test" (finalShell (run "admin" Store.empty)).store)).store
      = (finalShell (run "admin" Store.empty)).store ∧
    errorOf (run "test" (finalShell (run "admin" Store.empty)).store) =
      some (StoreError.duplicatePrincipal "video_streaming" "video_user") ∧
    ((finalShell (run "test" (finalShell (run "admin" Store.empty)).store)).store.lookup
      "video_streaming" "video_user").length = 1) :=
  ⟨by decide, rerun_keeps_store "admin" "test" Store.empty (by decide)⟩

/-! ## Output -/

/-- C5, as stated, fails: a run against a store that already holds `video_user` stops at
`createUser` and prints no line at all, so no printed line names the database. -/
theorem failed_run_names_no_database :
    ¬ ∃ line ∈ (finalShell (run "test" { principals := [videoUser], collections := [] })).out,
        containsText line "video_streaming" := by
  decide

/-- C5, amended: whatever the store answers, a run that ends without error has printed
a line that contains the database name `video_streaming` verbatim, namely
`Created database: video_streaming`. -/
theorem successful_run_names_database {σ ε : Type} (B : Backend σ ε) (current : String)
    (store : σ) (h : errorOf (initMongo B (Shell.fresh current store)) = none) :
    "Created database: video_streaming" ∈
      (finalShell (initMongo B (Shell.fresh current store))).out ∧
    ∃ line ∈ (finalShell (initMongo B (Shell.fresh current store))).out,
      containsText line "video_streaming" := by
  obtain ⟨st, hst⟩ := accepted_of_no_error B _ h
  rw [initMongo_of_accepted B _ st hst]
  have hm : "Created database: video_streaming" ∈
      (Shell.fresh current store).out ++ statusLines := by
    simp [statusLines]
  exact ⟨hm, _, hm, by decide⟩

theorem successful_run_names_database_witness :
    errorOf (initMongo mongo (Shell.fresh "test" Store.empty)) = none ∧
    ("Created database: video_streaming" ∈
      (finalShell (initMongo mongo (Shell.fresh "test" Store.empty))).out ∧
    ∃ line ∈ (finalShell (initMongo mongo (Shell.fresh "test" Store.empty))).out,
      containsText line "video_streaming") :=
  ⟨by decide, successful_run_names_database mongo "test" Store.empty (by decide)⟩

/-- C9: whatever the store answers and whatever it holds, a run that ends without error
has printed exactly the four status lines, in source order. -/
theorem successful_run_output {σ ε : Type} (B : Backend σ ε) (current : String) (store : σ)
    (h : errorOf (initMongo B (Shell.fresh current store)) = none) :
    (finalShell (initMongo B (Shell.fresh current store))).out =
      [ "MongoDB initialization completed successfully!",
        "Created database: video_streaming",
        "Created collections: video_raw_data, video_analytics, user_interactions",
        "Created indexes and inserted sample data" ] := by
  obtain ⟨st, hst⟩ := accepted_of_no_error B _ h
  rw [initMongo_of_accepted B _ st hst]
  rfl

theorem successful_run_output_witness :
    errorOf (initMongo mongo (Shell.fresh "admin" Store.empty)) = none ∧
    (finalShell (initMongo mongo (Shell.fresh "admin" Store.empty))).out =
      [ "MongoDB initialization completed successfully!",
        "Created database: video_streaming",
        "Created collections: video_raw_data, video_analytics, user_interactions",
        "Created indexes and inserted sample data" ] :=
  ⟨by decide, successful_run_output mongo "admin" Store.empty (by decide)⟩

/-! ## Rejection -/

/-- C7: when the store rejects the `createUser` command, for whatever reason, the run
ends with that very error, the store is the one the run started from, and nothing is
printed: none of the four status lines, and in particular not the success line. -/
theorem rejection_propagates {σ ε : Type} (B : Backend σ ε) (current : String) (store : σ)
    (e : ε) (h : B.createUser store "video_streaming" videoUserDoc = .error e) :
    errorOf (initMongo B (Shell.fresh current store)) = some e ∧
    (finalShell (initMongo B (Shell.fresh current store))).store = store ∧
    (finalShell (initMongo B (Shell.fresh current store))).out = [] ∧
    (∀ line ∈ statusLines,
      line ∉ (finalShell (initMongo B (Shell.fresh current store))).out) ∧
    "MongoDB initialization completed successfully!" ∉
      (finalShell (initMongo B (Shell.fresh current store))).out := by
  rw [initMongo_of_rejected B (Shell.fresh current store) e h]
  simp [finalShell, errorOf, Shell.fresh]

theorem rejection_propagates_witness :
    mongo.createUser { principals := [videoUser], collections := [] } "video_streaming"
      videoUserDoc = .error (StoreError.duplicatePrincipal "video_streaming" "video_user") ∧
    (errorOf (initMongo mongo
        (Shell.fresh "test" { principals := [videoUser], collections := [] }))
      = some (StoreError.duplicatePrincipal "video_streaming" "video_user") ∧
    (finalShell (initMongo mongo
        (Shell.fresh "test" { principals := [videoUser], collections := [] }))).store
      = { principals := [videoUser], collections := [] } ∧
    (finalShell (initMongo mongo
        (Shell.fresh "test" { principals := [videoUser], collections := [] }))).out = [] ∧
    (∀ line ∈ statusLines, line ∉ (finalShell (initMongo mongo
        (Shell.fresh "test" { principals := [videoUser], collections := [] }))).out) ∧
    "MongoDB initialization completed successfully!" ∉ (finalShell (initMongo mongo
        (Shell.fresh "test" { principals := [videoUser], collections := [] }))).out) :=
  ⟨rfl, rejection_propagates mongo "test" { principals := [videoUser], collections := [] }
    (StoreError.duplicatePrincipal "video_streaming" "video_user") rfl⟩

/-! ## Frame -/

/-- C6: for every store and every database other than `video_streaming`, a run, whether
it succeeds or fails, sends exactly one command, a `createUser` addressed to
`video_streaming`, sends nothing to that other database, and leaves the principals and
the collections of that database as they were. -/
theorem other_databases_untouched (current : String) (store : Store) (d : String)
    (hd : d ≠ "video_streaming") :
    (finalShell (run current store)).log =
      [Request.createUser "video_streaming" videoUserDoc] ∧
    (∀ q ∈ (finalShell (run current store)).log, q.target ≠ d) ∧
    (finalShell (run current store)).store.principalsOf d = store.principalsOf d ∧
    (finalShell (run current store)).store.collectionsOf d = store.collectionsOf d := by
  have hd2 : ¬ "video_streaming" = d := fun h => hd h.symm
  cases hp : store.hasPrincipal "video_streaming" "video_user" with
  | false =>
    rw [run_of_absent current store hp]
    simp [finalShell, Request.target, Store.principalsOf, Store.collectionsOf, videoUser,
      List.filter_append, hd2]
  | true =>
    rw [run_of_present current store hp]
    simp [finalShell, Request.target, hd2]

theorem other_databases_untouched_witness :
    "admin" ≠ "video_streaming" ∧
    ((finalShell (run "admin" Store.empty)).log =
      [Request.createUser "video_streaming" videoUserDoc] ∧
    (∀ q ∈ (finalShell (run "admin" Store.empty)).log, q.target ≠ "admin") ∧
    (finalShell (run "admin" Store.empty)).store.principalsOf "admin"
      = Store.empty.principalsOf "admin" ∧
    (finalShell (run "admin" Store.empty)).store.collectionsOf "admin"
      = Store.empty.collectionsOf "admin") :=
  ⟨by decide, other_databases_untouched "admin" Store.empty "admin" (by decide)⟩

/-- C8: a run that ends without error leaves the collections of the store, with their
indexes and documents, exactly as they were, although it prints that collections were
created; started on the empty store it leaves no collection at all, so none of
`video_raw_data`, `video_analytics`, `user_interactions` exists afterwards. -/
theorem no_collection_created (current : String) (store : Store)
    (h : errorOf (run current store) = none) :
    (finalShell (run current store)).store.collections = store.collections ∧
    (∀ d, (finalShell (run current store)).store.collectionsOf d = store.collectionsOf d) ∧
    "Created collections: video_raw_data, video_analytics, user_interactions" ∈
      (finalShell (run current store)).out ∧
    "Created indexes and inserted sample data" ∈ (finalShell (run current store)).out ∧
    errorOf (run current Store.empty) = none ∧
    (finalShell (run current Store.empty)).store.collections = [] ∧
    (∀ name ∈ ["video_raw_data", "video_analytics", "user_interactions"],
      ∀ c ∈ (finalShell (run current Store.empty)).store.collections, c.name ≠ name) := by
  have habs := absent_of_no_error current store h
  rw [run_of_absent current store habs, run_of_absent current Store.empty (by decide)]
  simp [finalShell, errorOf, Store.collectionsOf, statusLines, Store.empty]

theorem no_collection_created_witness :
    errorOf (run "test" { principals := [], collections := [⟨"video_streaming", "logs", [], []⟩] })
      = none ∧
    (finalShell (run "test"
      { principals := [], collections := [⟨"video_streaming", "logs", [], []⟩] })).store.collections
      = [⟨"video_streaming", "logs", [], []⟩] ∧
    (finalShell (run "test" Store.empty)).store.collections = [] :=
  ⟨by decide,
   (no_collection_created "test"
      { principals := [], collections := [⟨"video_streaming", "logs", [], []⟩] }
      (by decide)).1,
   (no_collection_created "test"
      { principals := [], collections := [⟨"video_streaming", "logs", [], []⟩] }
      (by decide)).2.2.2.2.2.1⟩

/-! ## Independence of the ambient handle -/

/-- C10: whatever the store answers, two runs from the same store that differ only in
the database the handle points to at the start give the same result (error or success,
final store, output, commands sent, final handle).  The handle is rebound to
`video_streaming` before anything is sent, the only command sent is addressed to
`video_streaming`, and every role it grants is scoped to that same database. -/
theorem result_independent_of_handle {σ ε : Type} (B : Backend σ ε) (store : σ)
    (d1 d2 : String) :
    initMongo B (Shell.fresh d1 store) = initMongo B (Shell.fresh d2 store) ∧
    (finalShell (initMongo B (Shell.fresh d1 store))).db = "video_streaming" ∧
    (finalShell (initMongo B (Shell.fresh d1 store))).log =
      [Request.createUser "video_streaming" videoUserDoc] ∧
    videoUserDoc.roles.map RoleGrant.db = ["video_streaming"] := by
  cases hc : B.createUser store "video_streaming" videoUserDoc with
  | ok st =>
    rw [initMongo_of_accepted B (Shell.fresh d1 store) st hc,
      initMongo_of_accepted B (Shell.fresh d2 store) st hc]
    exact ⟨rfl, rfl, rfl, rfl⟩
  | error e =>
    rw [initMongo_of_rejected B (Shell.fresh d1 store) e hc,
      initMongo_of_rejected B (Shell.fresh d2 store) e hc]
    exact ⟨rfl, rfl, rfl, rfl⟩

end InitMongo
